import Mathlib

/-!
Verification of the combat/progression simulation layer of the space-3d game.

Conventions of the embedding:
* JavaScript `number` arithmetic is modelled as exact rational (`ℚ`) or real
  (`ℝ`) arithmetic; `Math.floor` is `Int.floor`.
* `Math.floor(c * 1.5)` on the natural-number stored upgrade costs is `3 * c / 2`
  in natural-number division (exact for every reachable cost value).
* Stateful methods become functions from the relevant state record to a result
  and an updated record.
-/

set_option maxHeartbeats 1000000

namespace Space3D

/-! ## Weapon catalog — src/src/game/systems/WeaponSystem.ts -/

/-- `WeaponSystem.calculateUpgradeCost` (WeaponSystem.ts lines 219-225):
level 0 and 1 are free, otherwise `Math.floor(50 * 1.4 ^ (level - 1))`. -/
def calculateUpgradeCost (level : ℕ) : ℤ :=
  if level = 0 then 0
  else if level = 1 then 0
  else ⌊(50 : ℚ) * (7 / 5) ^ (level - 1)⌋

/-- `WeaponSystem.calculateResourceMultiplier` (WeaponSystem.ts lines 214-217):
`1.0 + level * 0.15`. -/
def calculateResourceMultiplier (level : ℕ) : ℚ :=
  1 + level * (3 / 20)

/-! ## Projectile penetration bookkeeping

`EnemyManager.checkProjectileCollisions` (src/unnamed/part_008 lines 146-155)
and `AsteroidManager.checkProjectileCollisions` (UIManager.ts lines 254-263)
run the identical on-hit block, modelled by `registerHit` below. -/

structure Projectile where
  penetration : ℕ
  penetrationCount : ℕ
  isAlive : Bool
deriving Repr, DecidableEq

/-- The on-hit block: `if (projectile.penetration > 0) { projectile.penetrationCount++;
if (projectile.penetrationCount > projectile.penetration) projectile.isAlive = false; }
else { projectile.isAlive = false; }`. -/
def registerHit (p : Projectile) : Projectile :=
  if 0 < p.penetration then
    let pc := p.penetrationCount + 1
    { p with
      penetrationCount := pc
      isAlive := if p.penetration < pc then false else p.isAlive }
  else
    { p with isAlive := false }

/-- A fresh projectile with penetration limit `P` (`penetrationCount` starts at 0). -/
def mkProjectile (P : ℕ) : Projectile :=
  { penetration := P, penetrationCount := 0, isAlive := true }

/-! ## Progression ledger — src/unnamed/part_006 (ProgressionManager, first version) -/

structure ProgressionState where
  resources : ℤ
  currentSector : ℕ
  stationCost : ℕ
  defenseCost : ℕ
  shipGunsLevel : ℕ
  stationLevel : ℕ
  defenseLevel : ℕ
  /-- `station.turrets.length`, read and grown by `upgradeDefense`. -/
  turretCount : ℕ
  /-- `EnemyManager.difficulty`, written through `setDifficulty`. -/
  enemyDifficulty : ℚ
deriving Repr, DecidableEq

/-- Constructor state of `ProgressionManager` (resources 100, sector 1, costs
100/75, levels 1/0/0) together with a fresh `EnemyManager` (difficulty 1) and
a turret-less station. -/
def initialProgression : ProgressionState :=
  { resources := 100, currentSector := 1, stationCost := 100, defenseCost := 75
    shipGunsLevel := 1, stationLevel := 0, defenseLevel := 0
    turretCount := 0, enemyDifficulty := 1 }

/-- `ProgressionManager.getShipGunsCost`: `WeaponSystem.calculateUpgradeCost(shipGunsLevel + 1)`. -/
def getShipGunsCost (s : ProgressionState) : ℤ :=
  calculateUpgradeCost (s.shipGunsLevel + 1)

/-- `ProgressionManager.canUpgradeShipGuns`: false at max level 10, else
`resources >= getShipGunsCost()`. -/
def canUpgradeShipGuns (s : ProgressionState) : Bool :=
  if 10 ≤ s.shipGunsLevel then false
  else decide (getShipGunsCost s ≤ s.resources)

/-- `ProgressionManager.canUpgradeStation`: `resources >= stationCost`. -/
def canUpgradeStation (s : ProgressionState) : Bool :=
  decide ((s.stationCost : ℤ) ≤ s.resources)

/-- `ProgressionManager.canUpgradeDefense`: `resources >= defenseCost`. -/
def canUpgradeDefense (s : ProgressionState) : Bool :=
  decide ((s.defenseCost : ℤ) ≤ s.resources)

/-- `ProgressionManager.upgradeShipGuns` (part_006 lines 60-69). The call
`player.upgradeWeapons()` changes only the (out-of-ledger) player visuals and
weapon config. Returns the boolean result and the updated ledger. -/
def upgradeShipGuns (s : ProgressionState) : Bool × ProgressionState :=
  if canUpgradeShipGuns s then
    (true, { s with
      resources := s.resources - getShipGunsCost s
      shipGunsLevel := s.shipGunsLevel + 1 })
  else (false, s)

/-- `ProgressionManager.upgradeStation` (part_006 lines 71-80):
deduct, level up, `station.upgrade()` (out of ledger), then
`stationCost = Math.floor(stationCost * 1.5)`. -/
def upgradeStation (s : ProgressionState) : Bool × ProgressionState :=
  if canUpgradeStation s then
    (true, { s with
      resources := s.resources - s.stationCost
      stationLevel := s.stationLevel + 1
      stationCost := 3 * s.stationCost / 2 })
  else (false, s)

/-- `ProgressionManager.upgradeDefense` (part_006 lines 82-98): deduct, level
up, add a turret when `turrets.length < defenseLevel` (else upgrade each
turret in place, which leaves the ledger untouched), then
`defenseCost = Math.floor(defenseCost * 1.5)`. -/
def upgradeDefense (s : ProgressionState) : Bool × ProgressionState :=
  if canUpgradeDefense s then
    (true, { s with
      resources := s.resources - s.defenseCost
      defenseLevel := s.defenseLevel + 1
      turretCount :=
        if s.turretCount < s.defenseLevel + 1 then s.turretCount + 1 else s.turretCount
      defenseCost := 3 * s.defenseCost / 2 })
  else (false, s)

/-- `ProgressionManager.canHyperspace` (part_006 lines 100-107):
false from sector 4 on, else all three levels at 3 or higher. -/
def canHyperspace (s : ProgressionState) : Bool :=
  if 4 ≤ s.currentSector then false
  else
    decide (3 ≤ s.shipGunsLevel) && decide (3 ≤ s.stationLevel) &&
      decide (3 ≤ s.defenseLevel)

/-- `EnemyManager.setDifficulty` (part_008 lines 253-255): `1 + sector * 0.5`. -/
def setDifficulty (sector : ℕ) : ℚ :=
  1 + sector * (1 / 2)

/-- `ProgressionManager.hyperspace` (part_006 lines 109-130): advance the
sector and push the new sector into `EnemyManager.setDifficulty`; scene
recoloring, logging and the victory console message carry no ledger state. -/
def hyperspace (s : ProgressionState) : Bool × ProgressionState :=
  if canHyperspace s then
    (true, { s with
      currentSector := s.currentSector + 1
      enemyDifficulty := setDifficulty (s.currentSector + 1) })
  else (false, s)

/-! ## Collected-resource accessors and the per-tick ledger update

`AsteroidManager.getCollectedResources` (UIManager.ts lines 300-304),
`EnemyManager.getCollectedResources` (part_008 lines 104-108) and
`Station.getCollectedResources` (Projectile.ts file, Station class lines
296-300), then `ProgressionManager.update` (part_006 lines 30-45). -/

/-- `AsteroidManager.getCollectedResources`: return the counter and zero it. -/
def asteroidGetCollectedResources (collectedResources : ℚ) : ℚ × ℚ :=
  (collectedResources, 0)

/-- `EnemyManager.getCollectedResources`: return the counter and zero it. -/
def enemyGetCollectedResources (collectedResources : ℚ) : ℚ × ℚ :=
  (collectedResources, 0)

/-- `Station.getCollectedResources`: `amount = Math.floor(resourceAccumulator);
resourceAccumulator -= amount; return amount`. -/
def stationGetCollectedResources (resourceAccumulator : ℚ) : ℤ × ℚ :=
  (⌊resourceAccumulator⌋, resourceAccumulator - ⌊resourceAccumulator⌋)

/-- The state `ProgressionManager.update` reads and writes: the ledger's
resource total, the player's weapon level (whose config supplies
`player.resourceMultiplier`), and the three managers' counters. -/
structure LedgerTickState where
  resources : ℤ
  weaponLevel : ℕ
  asteroidCollected : ℚ
  stationAccumulator : ℚ
  enemyCollected : ℚ

/-- `Player.resourceMultiplier`: stored as
`WeaponSystem.getWeaponConfig(weaponLevel).resourceMultiplier`, and
`getWeaponConfig` clamps the level into `[0, 10]` before deriving the config. -/
def playerResourceMultiplier (weaponLevel : ℕ) : ℚ :=
  calculateResourceMultiplier (max 0 (min 10 weaponLevel))

/-- `ProgressionManager.update` (part_006 lines 30-45): pull each manager's
collected resources; the asteroid and enemy portions are multiplied by the
player's weapon `resourceMultiplier` and floored, the station portion is
added unmultiplied. -/
def progressionUpdate (g : LedgerTickState) : LedgerTickState :=
  let weaponMultiplier := playerResourceMultiplier g.weaponLevel
  let asteroidPull := asteroidGetCollectedResources g.asteroidCollected
  let stationPull := stationGetCollectedResources g.stationAccumulator
  let enemyPull := enemyGetCollectedResources g.enemyCollected
  { resources := g.resources + ⌊asteroidPull.1 * weaponMultiplier⌋ + stationPull.1 +
      ⌊enemyPull.1 * weaponMultiplier⌋
    weaponLevel := g.weaponLevel
    asteroidCollected := asteroidPull.2
    stationAccumulator := stationPull.2
    enemyCollected := enemyPull.2 }

/-! ## The game tick — src/unnamed/part_012, missile-equipped `Game.update`
(lines 165-183), modelled as the trace of subsystem calls it performs, each
tagged with the deltaTime it receives. -/

inductive SysCall where
  | playerUpdate (dt : ℚ)
  | stationUpdate (dt : ℚ)
  | asteroidManagerUpdate (dt : ℚ)
  | enemyManagerUpdate (dt : ℚ)
  | missileManagerUpdate (dt : ℚ)
  | missileCheckCollisions
  | missileCheckAsteroidCollisions
  | progressionManagerUpdate
  | uiManagerUpdate
deriving Repr, DecidableEq

/-- `Game.update`: `if (deltaTime > 0.1) deltaTime = 0.1;` then the fixed
sequence of subsystem calls, in source order. -/
def gameUpdate (deltaTime : ℚ) : List SysCall :=
  let dt := if deltaTime > 1 / 10 then 1 / 10 else deltaTime
  [ .playerUpdate dt, .stationUpdate dt, .asteroidManagerUpdate dt,
    .enemyManagerUpdate dt, .missileManagerUpdate dt,
    .missileCheckCollisions, .missileCheckAsteroidCollisions,
    .progressionManagerUpdate, .uiManagerUpdate ]

/-! ## 3-D vectors — Babylon `Vector3`, with `number` modelled as ℝ -/

@[ext]
structure Vec3 where
  x : ℝ
  y : ℝ
  z : ℝ

namespace Vec3

instance : Zero Vec3 := ⟨⟨0, 0, 0⟩⟩

instance : Add Vec3 := ⟨fun a b => ⟨a.x + b.x, a.y + b.y, a.z + b.z⟩⟩

instance : Sub Vec3 := ⟨fun a b => ⟨a.x - b.x, a.y - b.y, a.z - b.z⟩⟩

@[simp] lemma zero_x : (0 : Vec3).x = 0 := rfl

@[simp] lemma zero_y : (0 : Vec3).y = 0 := rfl

@[simp] lemma zero_z : (0 : Vec3).z = 0 := rfl

@[simp] lemma add_x (a b : Vec3) : (a + b).x = a.x + b.x := rfl

@[simp] lemma add_y (a b : Vec3) : (a + b).y = a.y + b.y := rfl

@[simp] lemma add_z (a b : Vec3) : (a + b).z = a.z + b.z := rfl

@[simp] lemma sub_x (a b : Vec3) : (a - b).x = a.x - b.x := rfl

@[simp] lemma sub_y (a b : Vec3) : (a - b).y = a.y - b.y := rfl

@[simp] lemma sub_z (a b : Vec3) : (a - b).z = a.z - b.z := rfl

/-- Babylon `Vector3.scale`. -/
def scale (c : ℝ) (v : Vec3) : Vec3 := ⟨c * v.x, c * v.y, c * v.z⟩

@[simp] lemma scale_x (c : ℝ) (v : Vec3) : (scale c v).x = c * v.x := rfl

@[simp] lemma scale_y (c : ℝ) (v : Vec3) : (scale c v).y = c * v.y := rfl

@[simp] lemma scale_z (c : ℝ) (v : Vec3) : (scale c v).z = c * v.z := rfl

/-- Babylon `Vector3.length`: the Euclidean norm. -/
noncomputable def length (v : Vec3) : ℝ := Real.sqrt (v.x ^ 2 + v.y ^ 2 + v.z ^ 2)

/-- Babylon `Vector3.Distance`. -/
noncomputable def distance (a b : Vec3) : ℝ := length (a - b)

/-- Babylon `Vector3.normalize`: divide by the length. The source leaves a
zero-length vector unchanged, which coincides with `(0 : ℝ)⁻¹ • 0 = 0`. -/
noncomputable def normalize (v : Vec3) : Vec3 := scale (length v)⁻¹ v

lemma length_nonneg (v : Vec3) : 0 ≤ length v := Real.sqrt_nonneg _

lemma length_eq_zero_iff (v : Vec3) : length v = 0 ↔ v = 0 := by
  constructor
  · intro h
    have hsum : v.x ^ 2 + v.y ^ 2 + v.z ^ 2 = 0 := by
      have h0 : 0 ≤ v.x ^ 2 + v.y ^ 2 + v.z ^ 2 := by positivity
      have := Real.sqrt_eq_zero h0 |>.mp h
      exact this
    have hx : v.x = 0 := by nlinarith [sq_nonneg v.x, sq_nonneg v.y, sq_nonneg v.z]
    have hy : v.y = 0 := by nlinarith [sq_nonneg v.x, sq_nonneg v.y, sq_nonneg v.z]
    have hz : v.z = 0 := by nlinarith [sq_nonneg v.x, sq_nonneg v.y, sq_nonneg v.z]
    ext <;> simp [hx, hy, hz]
  · intro h
    subst h
    simp [length]

lemma length_scale (c : ℝ) (v : Vec3) : length (scale c v) = |c| * length v := by
  simp only [length, scale_x, scale_y, scale_z]
  have h : (c * v.x) ^ 2 + (c * v.y) ^ 2 + (c * v.z) ^ 2 =
      c ^ 2 * (v.x ^ 2 + v.y ^ 2 + v.z ^ 2) := by ring
  rw [h, Real.sqrt_mul (sq_nonneg c), Real.sqrt_sq_eq_abs]

lemma length_normalize (v : Vec3) (h : v ≠ 0) : length (normalize v) = 1 := by
  have hlen : length v ≠ 0 := fun h0 => h ((length_eq_zero_iff v).mp h0)
  rw [normalize, length_scale, abs_inv, abs_of_nonneg (length_nonneg v),
    inv_mul_cancel₀ hlen]

lemma add_sub_cancel_self (a w : Vec3) : a + w - a = w := by
  ext <;> simp

lemma sub_ne_zero_of_ne {a b : Vec3} (h : a ≠ b) : a - b ≠ 0 := by
  intro h0
  apply h
  have hx := congrArg Vec3.x h0
  have hy := congrArg Vec3.y h0
  have hz := congrArg Vec3.z h0
  simp only [sub_x, sub_y, sub_z, zero_x, zero_y, zero_z, sub_eq_zero] at hx hy hz
  ext <;> assumption

end Vec3

/-! ## Splash damage — `EnemyManager.applySplashDamage`
(src/unnamed/part_008 lines 165-179) -/

/-- The enemy state that the splash pass reads and writes. In the source
`getCollisionRadius()` derives the radius from the ship size
(`size * (1 / size ^ 0.7) * 2.0`); here the radius is carried as the enemy's
value, which is all the pass observes. -/
structure Enemy where
  position : Vec3
  health : ℝ
  isAlive : Bool
  collisionRadius : ℝ

open Classical in
/-- `Enemy.takeDamage` (part_005 lines 2551-2572), ledger-relevant part:
`health -= amount; if (health <= 0) isAlive = false` (the health-bar and
hit-spark side effects carry no combat state). -/
noncomputable def Enemy.takeDamage (e : Enemy) (amount : ℝ) : Enemy :=
  let h := e.health - amount
  { e with health := h, isAlive := if h ≤ 0 then false else e.isAlive }

open Classical in
/-- `EnemyManager.applySplashDamage`: for every live enemy whose distance to
the impact point is below `radius + collisionRadius`, apply `damage` once via
`takeDamage`; the loop touches each list element independently. -/
noncomputable def applySplashDamage (position : Vec3) (radius damage : ℝ)
    (enemies : List Enemy) : List Enemy :=
  enemies.map fun enemy =>
    if enemy.isAlive = true ∧
        Vec3.distance position enemy.position < radius + enemy.collisionRadius
    then enemy.takeDamage damage
    else enemy

/-! ## Squad tactical state machine — src/src/game/entities/Squad.ts -/

inductive SquadState where
  | approaching
  | engaging
  | retreating
  | regrouping
deriving Repr, DecidableEq

inductive TargetType where
  | player
  | station
deriving Repr, DecidableEq

/-- The squad-level state of `Squad`. The roster is carried as its length:
members only receive per-enemy formation/combat targets, which hold no
squad-level state; `formationPositions` likewise only feeds those members. -/
structure Squad where
  memberCount : ℕ
  state : SquadState
  targetType : TargetType
  rallyPoint : Vec3
  formationCenter : Vec3
  stateTimer : ℝ

/-- `Squad.engageDuration` = 8 seconds. -/
def engageDuration : ℝ := 8

/-- `Squad.retreatDuration` = 3 seconds. -/
def retreatDuration : ℝ := 3

/-- `Squad.regroupDuration` = 4 seconds. -/
def regroupDuration : ℝ := 4

open Classical in
/-- `Squad.updateApproaching` (Squad.ts lines 129-151): move the formation
center toward the target at speed 25 while farther than 60 units, else
transition to `engaging` and reset the timer. -/
noncomputable def updateApproaching (targetPos : Vec3) (deltaTime : ℝ) (s : Squad) : Squad :=
  let direction := targetPos - s.formationCenter
  let distance := direction.length
  if 60 < distance then
    { s with formationCenter :=
        s.formationCenter + Vec3.scale (deltaTime * 25) direction.normalize }
  else
    { s with state := .engaging, stateTimer := 0 }

open Classical in
/-- `Squad.updateEngaging` (Squad.ts lines 153-168): after `engageDuration`
seconds transition to `retreating` and set the rally point 100 units from
the target along the normalized away-vector. -/
noncomputable def updateEngaging (targetPos : Vec3) (deltaTime : ℝ) (s : Squad) : Squad :=
  if engageDuration < s.stateTimer then
    { s with
      state := .retreating
      stateTimer := 0
      rallyPoint := targetPos +
        Vec3.scale 100 (Vec3.normalize (s.formationCenter - targetPos)) }
  else s

open Classical in
/-- The formation-center move of `Squad.updateRetreating`: toward the rally
point at speed 35 while farther than 5 units. -/
noncomputable def retreatMove (deltaTime : ℝ) (rallyPoint formationCenter : Vec3) : Vec3 :=
  let direction := rallyPoint - formationCenter
  if 5 < direction.length then
    formationCenter + Vec3.scale (deltaTime * 35) direction.normalize
  else formationCenter

open Classical in
/-- `Squad.updateRetreating` (Squad.ts lines 170-192; its unused `targetPos`
parameter omitted): move toward the rally point, then after `retreatDuration`
seconds transition to `regrouping`. -/
noncomputable def updateRetreating (deltaTime : ℝ) (s : Squad) : Squad :=
  let s1 := { s with
    formationCenter := retreatMove deltaTime s.rallyPoint s.formationCenter }
  if retreatDuration < s1.stateTimer then
    { s1 with state := .regrouping, stateTimer := 0 }
  else s1

open Classical in
/-- `Squad.updateRegrouping` (Squad.ts lines 194-208): after `regroupDuration`
seconds return to `approaching`. -/
noncomputable def updateRegrouping (deltaTime : ℝ) (s : Squad) : Squad :=
  if regroupDuration < s.stateTimer then
    { s with state := .approaching, stateTimer := 0 }
  else s

/-- The target-position selection at the top of `Squad.update`. -/
def squadTarget (t : TargetType) (playerPos stationPos : Vec3) : Vec3 :=
  match t with
  | .player => playerPos
  | .station => stationPos

open Classical in
/-- `Squad.update` (Squad.ts lines 99-127). The two `Math.random()` draws of
the tick are passed in as `r1 r2`: after the state machine runs, the target
type is re-rolled when `r1 < 0.002`. An empty squad returns unchanged. -/
noncomputable def Squad.update (deltaTime : ℝ) (playerPos stationPos : Vec3)
    (r1 r2 : ℝ) (s : Squad) : Squad :=
  if s.memberCount = 0 then s
  else
    let s1 := { s with stateTimer := s.stateTimer + deltaTime }
    let targetPos := squadTarget s.targetType playerPos stationPos
    let s2 :=
      match s1.state with
      | .approaching => updateApproaching targetPos deltaTime s1
      | .engaging => updateEngaging targetPos deltaTime s1
      | .retreating => updateRetreating deltaTime s1
      | .regrouping => updateRegrouping deltaTime s1
    if r1 < 1 / 500 then
      { s2 with targetType := if r2 < 1 / 2 then .player else .station }
    else s2

/-- An uninterrupted multi-tick run of `Squad.update` with fixed player and
station positions and with random draws that never fire the 0.2% target flip
(`r1 = 1`). -/
noncomputable def squadRun (playerPos stationPos : Vec3) (dts : List ℝ) (s : Squad) : Squad :=
  dts.foldl (fun acc dt => Squad.update dt playerPos stationPos 1 1 acc) s

/-! ## Penetration (claim C1) -/

lemma registerHit_iterate_pos (P : ℕ) (hP : 0 < P) (k : ℕ) :
    registerHit^[k] (mkProjectile P) =
      { penetration := P, penetrationCount := k, isAlive := decide (k ≤ P) } := by
  induction k with
  | zero =>
      simp [mkProjectile, Nat.zero_le]
  | succ n ih =>
      rw [Function.iterate_succ_apply', ih]
      rcases lt_or_le P (n + 1) with h | h
      · have h1 : ¬ (n + 1 ≤ P) := by omega
        simp [registerHit, hP, h, h1]
      · have h1 : ¬ (P < n + 1) := by omega
        have h2 : n ≤ P := by omega
        simp [registerHit, hP, h, h1, h2]

lemma registerHit_iterate_zero (k : ℕ) :
    registerHit^[k] (mkProjectile 0) =
      { penetration := 0, penetrationCount := 0, isAlive := decide (k = 0) } := by
  induction k with
  | zero => simp [mkProjectile]
  | succ n ih =>
      rw [Function.iterate_succ_apply', ih]
      simp [registerHit]

/-- C1: a projectile created with penetration limit `P` and `penetrationCount`
0 is still alive after each of its first `P` direct hits, and `isAlive` is
false from hit `P + 1` on; in particular a `P = 0` projectile dies on its
first hit. -/
theorem claim_C1 (P k : ℕ) :
    (registerHit^[k] (mkProjectile P)).isAlive = true ↔ k ≤ P := by
  rcases Nat.eq_zero_or_pos P with hP | hP
  · subst hP
    rw [registerHit_iterate_zero]
    simp [Nat.le_zero]
  · rw [registerHit_iterate_pos P hP]
    simp

/-! ## Upgrade costs (claim C6) -/

/-- C6: the weapon upgrade-cost table: levels 0 and 1 are free, the second
upgrade costs `floor(50 * 1.4) = 70`, for `L ≥ 2` the cost is
`floor(50 * 1.4 ^ (L - 1))`, and the cost is non-decreasing over `L ∈ [1, 10]`. -/
theorem claim_C6 :
    calculateUpgradeCost 0 = 0 ∧ calculateUpgradeCost 1 = 0 ∧
    calculateUpgradeCost 2 = 70 ∧
    (∀ L : ℕ, 2 ≤ L → calculateUpgradeCost L = ⌊(50 : ℚ) * (7 / 5) ^ (L - 1)⌋) ∧
    (∀ L ∈ Finset.Icc 1 9, calculateUpgradeCost L ≤ calculateUpgradeCost (L + 1)) := by
  refine ⟨rfl, rfl, by norm_num [calculateUpgradeCost], ?_, ?_⟩
  · intro L hL
    have h0 : L ≠ 0 := by omega
    have h1 : L ≠ 1 := by omega
    simp [calculateUpgradeCost, h0, h1]
  · intro L hL
    fin_cases hL <;> norm_num [calculateUpgradeCost]

/-- C6 witness: the general cost formula and the monotone step evaluated
concretely at levels 5 and 4. -/
theorem claim_C6_witness :
    calculateUpgradeCost 5 = ⌊(50 : ℚ) * (7 / 5) ^ 4⌋ ∧
    calculateUpgradeCost 4 ≤ calculateUpgradeCost 5 :=
  ⟨claim_C6.2.2.2.1 5 (by norm_num), claim_C6.2.2.2.2 4 (by decide)⟩

/-! ## Upgrade operations (claim C3) -/

/-- C3 counterexample: with the ship-guns track already at level 10 the
upgrade is refused and the state left unchanged even though
`resources >= cost`, so the claim's "if resources >= cost it deducts and
increments" fails for the guns track. -/
theorem claim_C3_counterexample :
    getShipGunsCost
        { resources := 100000, currentSector := 1, stationCost := 100, defenseCost := 75
          shipGunsLevel := 10, stationLevel := 0, defenseLevel := 0
          turretCount := 0, enemyDifficulty := 1 } ≤ 100000 ∧
    upgradeShipGuns
        { resources := 100000, currentSector := 1, stationCost := 100, defenseCost := 75
          shipGunsLevel := 10, stationLevel := 0, defenseLevel := 0
          turretCount := 0, enemyDifficulty := 1 } =
      (false,
        { resources := 100000, currentSector := 1, stationCost := 100, defenseCost := 75
          shipGunsLevel := 10, stationLevel := 0, defenseLevel := 0
          turretCount := 0, enemyDifficulty := 1 }) := by
  constructor
  · norm_num [getShipGunsCost, calculateUpgradeCost]
  · simp [upgradeShipGuns, canUpgradeShipGuns]

/-- C3 amended: each upgrade operation is atomic. On `resources < cost` it
returns false and changes nothing; on `resources >= cost` — and, for the
ship-guns track only, level below the cap of 10 — it deducts exactly the
cost and increments the level, with the stored station/defense cost then
multiplied by 1.5 and floored (the guns cost is recomputed from the weapon
table instead and no stored cost changes). -/
theorem claim_C3_amended (s : ProgressionState) :
    (s.resources < getShipGunsCost s → upgradeShipGuns s = (false, s)) ∧
    (s.shipGunsLevel < 10 → getShipGunsCost s ≤ s.resources →
      (upgradeShipGuns s).1 = true ∧
      (upgradeShipGuns s).2.resources = s.resources - getShipGunsCost s ∧
      (upgradeShipGuns s).2.shipGunsLevel = s.shipGunsLevel + 1 ∧
      (upgradeShipGuns s).2.stationCost = s.stationCost ∧
      (upgradeShipGuns s).2.defenseCost = s.defenseCost) ∧
    (s.resources < s.stationCost → upgradeStation s = (false, s)) ∧
    ((s.stationCost : ℤ) ≤ s.resources →
      (upgradeStation s).1 = true ∧
      (upgradeStation s).2.resources = s.resources - s.stationCost ∧
      (upgradeStation s).2.stationLevel = s.stationLevel + 1 ∧
      (upgradeStation s).2.stationCost = 3 * s.stationCost / 2) ∧
    (s.resources < s.defenseCost → upgradeDefense s = (false, s)) ∧
    ((s.defenseCost : ℤ) ≤ s.resources →
      (upgradeDefense s).1 = true ∧
      (upgradeDefense s).2.resources = s.resources - s.defenseCost ∧
      (upgradeDefense s).2.defenseLevel = s.defenseLevel + 1 ∧
      (upgradeDefense s).2.defenseCost = 3 * s.defenseCost / 2) := by
  refine ⟨?_, ?_, ?_, ?_, ?_, ?_⟩
  · intro h
    have hc : canUpgradeShipGuns s = false := by
      simp only [canUpgradeShipGuns]
      split
      · rfl
      · simp [not_le.mpr h]
    simp [upgradeShipGuns, hc]
  · intro hlvl hres
    have hc : canUpgradeShipGuns s = true := by
      simp [canUpgradeShipGuns, Nat.not_le.mpr hlvl, hres]
    simp [upgradeShipGuns, hc]
  · intro h
    have hc : canUpgradeStation s = false := by
      simp [canUpgradeStation, not_le.mpr h]
    simp [upgradeStation, hc]
  · intro h
    have hc : canUpgradeStation s = true := by
      simp [canUpgradeStation, h]
    simp [upgradeStation, hc]
  · intro h
    have hc : canUpgradeDefense s = false := by
      simp [canUpgradeDefense, not_le.mpr h]
    simp [upgradeDefense, hc]
  · intro h
    have hc : canUpgradeDefense s = true := by
      simp [canUpgradeDefense, h]
    simp [upgradeDefense, hc]

/-- C3 witness: from the initial state (resources 100), upgrading the station
(cost exactly 100) succeeds and deducts in full, and upgrading the guns with
`resources < cost` after pushing the level to 2 fails; instantiated through
the amended theorem. -/
theorem claim_C3_amended_witness :
    ((upgradeStation initialProgression).1 = true ∧
      (upgradeStation initialProgression).2.resources = 100 - (100 : ℕ) ∧
      (upgradeStation initialProgression).2.stationLevel = 0 + 1 ∧
      (upgradeStation initialProgression).2.stationCost = 3 * 100 / 2) ∧
    ((upgradeShipGuns initialProgression).1 = true ∧
      (upgradeShipGuns initialProgression).2.resources = 100 - getShipGunsCost initialProgression ∧
      (upgradeShipGuns initialProgression).2.shipGunsLevel = 1 + 1 ∧
      (upgradeShipGuns initialProgression).2.stationCost = 100 ∧
      (upgradeShipGuns initialProgression).2.defenseCost = 75) :=
  ⟨(claim_C3_amended initialProgression).2.2.2.1 (by norm_num [initialProgression]),
   (claim_C3_amended initialProgression).2.1 (by norm_num [initialProgression])
     (by norm_num [initialProgression, getShipGunsCost, calculateUpgradeCost])⟩

/-! ## Sector advance (claim C4) -/

/-- C4 counterexample: the sector 2 → 3 jump succeeds with every track at
level 3, though the claim demands level 5 for that transition. -/
theorem claim_C4_counterexample :
    (hyperspace
        { resources := 0, currentSector := 2, stationCost := 100, defenseCost := 75
          shipGunsLevel := 3, stationLevel := 3, defenseLevel := 3
          turretCount := 0, enemyDifficulty := 2 }).1 = true ∧
    (3 : ℕ) < 5 := by
  constructor
  · simp [hyperspace, canHyperspace]
  · norm_num

/-- C4 amended: sector advance succeeds exactly when the current sector is
below 4 and all three track levels are at least 3 — the same threshold for
every transition, with no 5/7/10 escalation — and on success the sector
increments and the enemy difficulty scalar becomes
`1 + newSector * 0.5`. -/
theorem claim_C4_amended (s : ProgressionState) :
    ((hyperspace s).1 = true ↔
      s.currentSector < 4 ∧ 3 ≤ s.shipGunsLevel ∧ 3 ≤ s.stationLevel ∧
        3 ≤ s.defenseLevel) ∧
    ((hyperspace s).1 = true →
      (hyperspace s).2.currentSector = s.currentSector + 1 ∧
      (hyperspace s).2.enemyDifficulty = 1 + (s.currentSector + 1) * (1 / 2)) := by
  have hcan : canHyperspace s = true ↔
      s.currentSector < 4 ∧ 3 ≤ s.shipGunsLevel ∧ 3 ≤ s.stationLevel ∧
        3 ≤ s.defenseLevel := by
    simp only [canHyperspace]
    split
    · rename_i h
      simp only [Bool.false_eq_true, false_iff]
      omega
    · rename_i h
      simp only [Bool.and_eq_true, decide_eq_true_eq]
      constructor
      · rintro ⟨⟨h1, h2⟩, h3⟩
        exact ⟨by omega, h1, h2, h3⟩
      · rintro ⟨h0, h1, h2, h3⟩
        exact ⟨⟨h1, h2⟩, h3⟩
  constructor
  · rw [← hcan]
    constructor
    · intro h
      by_contra hc
      have : canHyperspace s = false := by
        cases hcf : canHyperspace s
        · rfl
        · exact absurd hcf hc
      simp [hyperspace, this] at h
    · intro h
      simp [hyperspace, h]
  · intro h
    have hc : canHyperspace s = true := by
      by_contra hc
      have : canHyperspace s = false := by
        cases hcf : canHyperspace s
        · rfl
        · exact absurd hcf hc
      simp [hyperspace, this] at h
    simp [hyperspace, hc, setDifficulty]

/-- C4 witness: the amended statement instantiated on a sector 1 state with
every track at level 3: the jump succeeds and the difficulty becomes 2. -/
theorem claim_C4_amended_witness :
    ((hyperspace
        { resources := 0, currentSector := 1, stationCost := 100, defenseCost := 75
          shipGunsLevel := 3, stationLevel := 3, defenseLevel := 3
          turretCount := 0, enemyDifficulty := 3/2 }).1 = true ↔
      (1 : ℕ) < 4 ∧ (3 : ℕ) ≤ 3 ∧ (3 : ℕ) ≤ 3 ∧ (3 : ℕ) ≤ 3) ∧
    ((hyperspace
        { resources := 0, currentSector := 1, stationCost := 100, defenseCost := 75
          shipGunsLevel := 3, stationLevel := 3, defenseLevel := 3
          turretCount := 0, enemyDifficulty := 3/2 }).2.currentSector = 1 + 1 ∧
      (hyperspace
        { resources := 0, currentSector := 1, stationCost := 100, defenseCost := 75
          shipGunsLevel := 3, stationLevel := 3, defenseLevel := 3
          turretCount := 0, enemyDifficulty := 3/2 }).2.enemyDifficulty =
        1 + (1 + 1) * (1 / 2)) := by
  refine ⟨(claim_C4_amended _).1, (claim_C4_amended _).2 ?_⟩
  exact (claim_C4_amended _).1.mpr (by norm_num)

/-! ## Ledger tick (claim C5) -/

/-- C5: each ledger update adds the asteroid- and enemy-sourced resources
multiplied by the weapon resource multiplier `1 + 0.15 * level` and floored,
while the station-generated portion is added unmultiplied; at weapon level 5
(multiplier 1.75) an asteroid yield of 10 credits `floor(10 * 1.75) = 17`. -/
theorem claim_C5 :
    (∀ g : LedgerTickState, g.weaponLevel ≤ 10 →
      (progressionUpdate g).resources =
        g.resources + ⌊g.asteroidCollected * (1 + g.weaponLevel * (3 / 20))⌋ +
          ⌊g.stationAccumulator⌋ +
          ⌊g.enemyCollected * (1 + g.weaponLevel * (3 / 20))⌋) ∧
    playerResourceMultiplier 5 = 7 / 4 ∧
    (progressionUpdate
        { resources := 0, weaponLevel := 5, asteroidCollected := 10
          stationAccumulator := 0, enemyCollected := 0 }).resources = 17 := by
  refine ⟨?_, by norm_num [playerResourceMultiplier, calculateResourceMultiplier], ?_⟩
  · intro g hg
    have hmin : min 10 g.weaponLevel = g.weaponLevel := min_eq_right hg
    simp [progressionUpdate, asteroidGetCollectedResources,
      stationGetCollectedResources, enemyGetCollectedResources,
      playerResourceMultiplier, calculateResourceMultiplier, hmin]
  · norm_num [progressionUpdate, asteroidGetCollectedResources,
      stationGetCollectedResources, enemyGetCollectedResources,
      playerResourceMultiplier, calculateResourceMultiplier]

/-- C5 witness: the per-tick formula instantiated at the level-5 scenario
(asteroid yield 10, empty station and enemy counters, ledger at 0). -/
theorem claim_C5_witness :
    (progressionUpdate
        { resources := 0, weaponLevel := 5, asteroidCollected := 10
          stationAccumulator := 0, enemyCollected := 0 }).resources =
      0 + ⌊(10 : ℚ) * (1 + (5 : ℕ) * (3 / 20))⌋ + ⌊(0 : ℚ)⌋ +
        ⌊(0 : ℚ) * (1 + (5 : ℕ) * (3 / 20))⌋ :=
  claim_C5.1
    { resources := 0, weaponLevel := 5, asteroidCollected := 10
      stationAccumulator := 0, enemyCollected := 0 } (by norm_num)

/-! ## Tick ordering and deltaTime clamp (claim C9) -/

/-- C9: each tick clamps deltaTime to at most 0.1 s and then calls, in order:
player, station, asteroid manager, enemy manager, missile manager update
followed by its two collision passes, the progression ledger, and the UI
last, with every deltaTime-consuming call receiving the same clamped value. -/
theorem claim_C9 (deltaTime : ℚ) :
    gameUpdate deltaTime =
      [ .playerUpdate (min deltaTime (1 / 10)),
        .stationUpdate (min deltaTime (1 / 10)),
        .asteroidManagerUpdate (min deltaTime (1 / 10)),
        .enemyManagerUpdate (min deltaTime (1 / 10)),
        .missileManagerUpdate (min deltaTime (1 / 10)),
        .missileCheckCollisions, .missileCheckAsteroidCollisions,
        .progressionManagerUpdate, .uiManagerUpdate ] ∧
    min deltaTime (1 / 10) ≤ 1 / 10 := by
  have hmin : (if deltaTime > 1 / 10 then 1 / 10 else deltaTime) =
      min deltaTime (1 / 10) := by
    rcases le_or_lt deltaTime (1 / 10) with h | h
    · rw [if_neg (not_lt.mpr h), min_eq_left h]
    · rw [if_pos h, min_eq_right h.le]
  refine ⟨?_, min_le_right _ _⟩
  simp only [gameUpdate, hmin]

/-! ## Splash damage (claim C2) -/

/-- C2: in the splash pass after a direct hit, every live enemy whose
center-to-center distance from the impact point is `< splashRadius +
collisionRadius` takes exactly the projectile's full damage once (no
falloff), an enemy outside that threshold (or dead) is left untouched, and
no enemy ever loses more than one application of the damage in the pass —
splash never chains. -/
theorem claim_C2 (position : Vec3) (radius damage : ℝ) (enemies : List Enemy)
    (i : ℕ) (e : Enemy) (he : enemies.get? i = some e) :
    ((e.isAlive = true ∧
        Vec3.distance position e.position < radius + e.collisionRadius) →
      (applySplashDamage position radius damage enemies).get? i =
          some (e.takeDamage damage) ∧
        (e.takeDamage damage).health = e.health - damage) ∧
    (¬ (e.isAlive = true ∧
        Vec3.distance position e.position < radius + e.collisionRadius) →
      (applySplashDamage position radius damage enemies).get? i = some e) ∧
    (∀ e2 : Enemy, (applySplashDamage position radius damage enemies).get? i = some e2 →
      e2.health = e.health - damage ∨ e2.health = e.health) := by
  have hmap : (applySplashDamage position radius damage enemies).get? i =
      (enemies.get? i).map fun enemy =>
        if enemy.isAlive = true ∧
            Vec3.distance position enemy.position < radius + enemy.collisionRadius
        then enemy.takeDamage damage
        else enemy := by
    simp [applySplashDamage, List.get?_map]
  rw [hmap, he]
  refine ⟨?_, ?_, ?_⟩
  · intro hcond
    rw [Option.map_some']
    rw [if_pos hcond]
    exact ⟨rfl, rfl⟩
  · intro hcond
    rw [Option.map_some']
    rw [if_neg hcond]
  · intro e2 he2
    rw [Option.map_some'] at he2
    by_cases hcond : e.isAlive = true ∧
        Vec3.distance position e.position < radius + e.collisionRadius
    · rw [if_pos hcond] at he2
      left
      have : e2 = e.takeDamage damage := by
        injection he2 with h
        exact h.symm
      rw [this]
      rfl
    · rw [if_neg hcond] at he2
      right
      have : e2 = e := by
        injection he2 with h
        exact h.symm
      rw [this]

/-- C2 witness: an impact at the origin with splash radius 5 against two live
enemies of collision radius 3 — one 7 units away (damaged in full: health
100 drops to 88 under 12 damage) and one 9 units away (untouched). -/
theorem claim_C2_witness :
    (applySplashDamage ⟨0, 0, 0⟩ 5 12
        [⟨⟨7, 0, 0⟩, 100, true, 3⟩, ⟨⟨9, 0, 0⟩, 100, true, 3⟩]).get? 0 =
      some (Enemy.takeDamage ⟨⟨7, 0, 0⟩, 100, true, 3⟩ 12) ∧
    (Enemy.takeDamage ⟨⟨7, 0, 0⟩, 100, true, 3⟩ 12).health = 100 - 12 ∧
    (applySplashDamage ⟨0, 0, 0⟩ 5 12
        [⟨⟨7, 0, 0⟩, 100, true, 3⟩, ⟨⟨9, 0, 0⟩, 100, true, 3⟩]).get? 1 =
      some ⟨⟨9, 0, 0⟩, 100, true, 3⟩ := by
  have hd7 : Vec3.distance ⟨0, 0, 0⟩ (⟨7, 0, 0⟩ : Vec3) = 7 := by
    show Real.sqrt ((0 - 7 : ℝ) ^ 2 + (0 - 0 : ℝ) ^ 2 + (0 - 0 : ℝ) ^ 2) = 7
    rw [show ((0 - 7 : ℝ) ^ 2 + (0 - 0 : ℝ) ^ 2 + (0 - 0 : ℝ) ^ 2) = 7 ^ 2 by norm_num]
    exact Real.sqrt_sq (by norm_num)
  have hd9 : Vec3.distance ⟨0, 0, 0⟩ (⟨9, 0, 0⟩ : Vec3) = 9 := by
    show Real.sqrt ((0 - 9 : ℝ) ^ 2 + (0 - 0 : ℝ) ^ 2 + (0 - 0 : ℝ) ^ 2) = 9
    rw [show ((0 - 9 : ℝ) ^ 2 + (0 - 0 : ℝ) ^ 2 + (0 - 0 : ℝ) ^ 2) = 9 ^ 2 by norm_num]
    exact Real.sqrt_sq (by norm_num)
  have h0 := claim_C2 ⟨0, 0, 0⟩ 5 12
    [⟨⟨7, 0, 0⟩, 100, true, 3⟩, ⟨⟨9, 0, 0⟩, 100, true, 3⟩] 0
    ⟨⟨7, 0, 0⟩, 100, true, 3⟩ rfl
  have h1 := claim_C2 ⟨0, 0, 0⟩ 5 12
    [⟨⟨7, 0, 0⟩, 100, true, 3⟩, ⟨⟨9, 0, 0⟩, 100, true, 3⟩] 1
    ⟨⟨9, 0, 0⟩, 100, true, 3⟩ rfl
  have hc0 := h0.1 ⟨rfl, by rw [hd7]; norm_num⟩
  have hc1 := h1.2.1 (by
    rintro ⟨-, hlt⟩
    rw [hd9] at hlt
    norm_num at hlt)
  exact ⟨hc0.1, hc0.2, hc1⟩

/-! ## Squad state-machine step lemmas -/

lemma squadRun_nil (p st : Vec3) (s : Squad) : squadRun p st [] s = s := rfl

lemma squadRun_cons (p st : Vec3) (d : ℝ) (l : List ℝ) (s : Squad) :
    squadRun p st (d :: l) s = squadRun p st l (Squad.update d p st 1 1 s) := rfl

lemma squadRun_append (p st : Vec3) (l1 l2 : List ℝ) (s : Squad) :
    squadRun p st (l1 ++ l2) s = squadRun p st l2 (squadRun p st l1 s) :=
  List.foldl_append _ _ _ _

lemma noflip_one : ¬ ((1 : ℝ) < 1 / 500) := by norm_num

lemma step_approach_to_engaging (dt : ℝ) (p st : Vec3) (m : ℕ) (tt : TargetType)
    (rp fc : Vec3) (t : ℝ) (hm : m ≠ 0)
    (hd : Vec3.length (squadTarget tt p st - fc) ≤ 60) :
    Squad.update dt p st 1 1 ⟨m, .approaching, tt, rp, fc, t⟩ =
      ⟨m, .engaging, tt, rp, fc, 0⟩ := by
  simp only [Squad.update, hm, if_false, ite_false, if_neg noflip_one,
    updateApproaching, if_neg (not_lt.mpr hd)]

lemma step_engaging_stay (dt : ℝ) (p st : Vec3) (m : ℕ) (tt : TargetType)
    (rp fc : Vec3) (t : ℝ) (hm : m ≠ 0) (h : t + dt ≤ 8) :
    Squad.update dt p st 1 1 ⟨m, .engaging, tt, rp, fc, t⟩ =
      ⟨m, .engaging, tt, rp, fc, t + dt⟩ := by
  have h8 : ¬ (engageDuration < t + dt) := by
    rw [engageDuration]
    exact not_lt.mpr h
  simp only [Squad.update, hm, if_false, ite_false, if_neg noflip_one,
    updateEngaging, if_neg h8]

lemma step_engaging_to_retreating (dt : ℝ) (p st : Vec3) (m : ℕ) (tt : TargetType)
    (rp fc : Vec3) (t : ℝ) (hm : m ≠ 0) (h : 8 < t + dt) :
    Squad.update dt p st 1 1 ⟨m, .engaging, tt, rp, fc, t⟩ =
      ⟨m, .retreating, tt,
        squadTarget tt p st +
          Vec3.scale 100 (Vec3.normalize (fc - squadTarget tt p st)), fc, 0⟩ := by
  have h8 : engageDuration < t + dt := by
    rw [engageDuration]
    exact h
  simp only [Squad.update, hm, if_false, ite_false, if_neg noflip_one,
    updateEngaging, if_pos h8]

lemma step_retreating_stay (dt : ℝ) (p st : Vec3) (m : ℕ) (tt : TargetType)
    (rp fc : Vec3) (t : ℝ) (hm : m ≠ 0) (h : t + dt ≤ 3) :
    Squad.update dt p st 1 1 ⟨m, .retreating, tt, rp, fc, t⟩ =
      ⟨m, .retreating, tt, rp, retreatMove dt rp fc, t + dt⟩ := by
  have h3 : ¬ (retreatDuration < t + dt) := by
    rw [retreatDuration]
    exact not_lt.mpr h
  simp only [Squad.update, hm, if_false, ite_false, if_neg noflip_one,
    updateRetreating, if_neg h3]

lemma step_retreating_to_regrouping (dt : ℝ) (p st : Vec3) (m : ℕ) (tt : TargetType)
    (rp fc : Vec3) (t : ℝ) (hm : m ≠ 0) (h : 3 < t + dt) :
    Squad.update dt p st 1 1 ⟨m, .retreating, tt, rp, fc, t⟩ =
      ⟨m, .regrouping, tt, rp, retreatMove dt rp fc, 0⟩ := by
  have h3 : retreatDuration < t + dt := by
    rw [retreatDuration]
    exact h
  simp only [Squad.update, hm, if_false, ite_false, if_neg noflip_one,
    updateRetreating, if_pos h3]

lemma step_regrouping_stay (dt : ℝ) (p st : Vec3) (m : ℕ) (tt : TargetType)
    (rp fc : Vec3) (t : ℝ) (hm : m ≠ 0) (h : t + dt ≤ 4) :
    Squad.update dt p st 1 1 ⟨m, .regrouping, tt, rp, fc, t⟩ =
      ⟨m, .regrouping, tt, rp, fc, t + dt⟩ := by
  have h4 : ¬ (regroupDuration < t + dt) := by
    rw [regroupDuration]
    exact not_lt.mpr h
  simp only [Squad.update, hm, if_false, ite_false, if_neg noflip_one,
    updateRegrouping, if_neg h4]

lemma step_regrouping_to_approaching (dt : ℝ) (p st : Vec3) (m : ℕ) (tt : TargetType)
    (rp fc : Vec3) (t : ℝ) (hm : m ≠ 0) (h : 4 < t + dt) :
    Squad.update dt p st 1 1 ⟨m, .regrouping, tt, rp, fc, t⟩ =
      ⟨m, .approaching, tt, rp, fc, 0⟩ := by
  have h4 : regroupDuration < t + dt := by
    rw [regroupDuration]
    exact h
  simp only [Squad.update, hm, if_false, ite_false, if_neg noflip_one,
    updateRegrouping, if_pos h4]

lemma run_engaging (p st : Vec3) (m : ℕ) (tt : TargetType) (rp fc : Vec3)
    (l : List ℝ) :
    ∀ t : ℝ, m ≠ 0 → (∀ d ∈ l, 0 ≤ d) → t + l.sum ≤ 8 →
      squadRun p st l ⟨m, .engaging, tt, rp, fc, t⟩ =
        ⟨m, .engaging, tt, rp, fc, t + l.sum⟩ := by
  induction l with
  | nil =>
      intro t hm _ _
      simp [squadRun_nil]
  | cons d l ih =>
      intro t hm hnn hsum
      have hl0 : 0 ≤ l.sum := List.sum_nonneg fun x hx => hnn x (List.mem_cons_of_mem d hx)
      have hsum' : t + (d + l.sum) ≤ 8 := by
        simpa [List.sum_cons] using hsum
      have hstep : t + d ≤ 8 := by linarith
      rw [squadRun_cons, step_engaging_stay d p st m tt rp fc t hm hstep,
        ih (t + d) hm (fun x hx => hnn x (List.mem_cons_of_mem d hx)) (by linarith)]
      simp [List.sum_cons]
      ring

lemma run_retreating (p st : Vec3) (m : ℕ) (tt : TargetType) (rp : Vec3)
    (l : List ℝ) :
    ∀ (fc : Vec3) (t : ℝ), m ≠ 0 → (∀ d ∈ l, 0 ≤ d) → t + l.sum ≤ 3 →
      ∃ fc2 : Vec3, squadRun p st l ⟨m, .retreating, tt, rp, fc, t⟩ =
        ⟨m, .retreating, tt, rp, fc2, t + l.sum⟩ := by
  induction l with
  | nil =>
      intro fc t hm _ _
      exact ⟨fc, by simp [squadRun_nil]⟩
  | cons d l ih =>
      intro fc t hm hnn hsum
      have hl0 : 0 ≤ l.sum := List.sum_nonneg fun x hx => hnn x (List.mem_cons_of_mem d hx)
      have hsum' : t + (d + l.sum) ≤ 3 := by
        simpa [List.sum_cons] using hsum
      have hstep : t + d ≤ 3 := by linarith
      obtain ⟨fc2, hfc2⟩ := ih (retreatMove d rp fc) (t + d) hm
        (fun x hx => hnn x (List.mem_cons_of_mem d hx)) (by linarith)
      refine ⟨fc2, ?_⟩
      rw [squadRun_cons, step_retreating_stay d p st m tt rp fc t hm hstep, hfc2]
      simp [List.sum_cons]
      ring

lemma run_regrouping (p st : Vec3) (m : ℕ) (tt : TargetType) (rp fc : Vec3)
    (l : List ℝ) :
    ∀ t : ℝ, m ≠ 0 → (∀ d ∈ l, 0 ≤ d) → t + l.sum ≤ 4 →
      squadRun p st l ⟨m, .regrouping, tt, rp, fc, t⟩ =
        ⟨m, .regrouping, tt, rp, fc, t + l.sum⟩ := by
  induction l with
  | nil =>
      intro t hm _ _
      simp [squadRun_nil]
  | cons d l ih =>
      intro t hm hnn hsum
      have hl0 : 0 ≤ l.sum := List.sum_nonneg fun x hx => hnn x (List.mem_cons_of_mem d hx)
      have hsum' : t + (d + l.sum) ≤ 4 := by
        simpa [List.sum_cons] using hsum
      have hstep : t + d ≤ 4 := by linarith
      rw [squadRun_cons, step_regrouping_stay d p st m tt rp fc t hm hstep,
        ih (t + d) hm (fun x hx => hnn x (List.mem_cons_of_mem d hx)) (by linarith)]
      simp [List.sum_cons]
      ring

lemma rally_distance (tgt fc : Vec3) (h : fc ≠ tgt) :
    Vec3.distance (tgt + Vec3.scale 100 (Vec3.normalize (fc - tgt))) tgt = 100 := by
  rw [Vec3.distance, Vec3.add_sub_cancel_self, Vec3.length_scale,
    Vec3.length_normalize (fc - tgt) (Vec3.sub_ne_zero_of_ne h)]
  norm_num

/-! ## Squad tactical cycle (claim C7) -/

/-- C7: the uninterrupted squad cycle is closed. From `approaching` with the
formation center within 60 units of the target, one tick enters `engaging`
with the timer reset; `engaging` persists while the accumulated time stays
within the 8-second engage duration and the tick pushing it past 8 enters
`retreating`, placing the rally point exactly 100 units from the target
along the away-vector; `retreating` persists within its 3 seconds and then
yields `regrouping`; `regrouping` persists within its 4 seconds and then
returns to `approaching` — with no terminal state. -/
theorem claim_C7 (p st : Vec3) (m : ℕ) (tt : TargetType) (rp fc : Vec3) (t : ℝ)
    (hm : m ≠ 0)
    (hd : Vec3.length (squadTarget tt p st - fc) ≤ 60)
    (hne : fc ≠ squadTarget tt p st)
    (dt1 dt2 dt3 dt4 : ℝ) (l2 l3 l4 : List ℝ)
    (hl2 : ∀ d ∈ l2, 0 ≤ d) (hs2 : l2.sum ≤ 8) (h2 : 8 < l2.sum + dt2)
    (hl3 : ∀ d ∈ l3, 0 ≤ d) (hs3 : l3.sum ≤ 3) (h3 : 3 < l3.sum + dt3)
    (hl4 : ∀ d ∈ l4, 0 ≤ d) (hs4 : l4.sum ≤ 4) (h4 : 4 < l4.sum + dt4) :
    ∃ fc3 : Vec3,
      squadRun p st [dt1] ⟨m, .approaching, tt, rp, fc, t⟩ =
        ⟨m, .engaging, tt, rp, fc, 0⟩ ∧
      squadRun p st (l2 ++ [dt2]) ⟨m, .engaging, tt, rp, fc, 0⟩ =
        ⟨m, .retreating, tt,
          squadTarget tt p st +
            Vec3.scale 100 (Vec3.normalize (fc - squadTarget tt p st)), fc, 0⟩ ∧
      Vec3.distance
          (squadTarget tt p st +
            Vec3.scale 100 (Vec3.normalize (fc - squadTarget tt p st)))
          (squadTarget tt p st) = 100 ∧
      squadRun p st (l3 ++ [dt3])
          ⟨m, .retreating, tt,
            squadTarget tt p st +
              Vec3.scale 100 (Vec3.normalize (fc - squadTarget tt p st)), fc, 0⟩ =
        ⟨m, .regrouping, tt,
          squadTarget tt p st +
            Vec3.scale 100 (Vec3.normalize (fc - squadTarget tt p st)), fc3, 0⟩ ∧
      squadRun p st (l4 ++ [dt4])
          ⟨m, .regrouping, tt,
            squadTarget tt p st +
              Vec3.scale 100 (Vec3.normalize (fc - squadTarget tt p st)), fc3, 0⟩ =
        ⟨m, .approaching, tt,
          squadTarget tt p st +
            Vec3.scale 100 (Vec3.normalize (fc - squadTarget tt p st)), fc3, 0⟩ ∧
      squadRun p st ([dt1] ++ (l2 ++ [dt2]) ++ (l3 ++ [dt3]) ++ (l4 ++ [dt4]))
          ⟨m, .approaching, tt, rp, fc, t⟩ =
        ⟨m, .approaching, tt,
          squadTarget tt p st +
            Vec3.scale 100 (Vec3.normalize (fc - squadTarget tt p st)), fc3, 0⟩ := by
  have hp1 : squadRun p st [dt1] ⟨m, .approaching, tt, rp, fc, t⟩ =
      ⟨m, .engaging, tt, rp, fc, 0⟩ := by
    rw [squadRun_cons, step_approach_to_engaging dt1 p st m tt rp fc t hm hd,
      squadRun_nil]
  have hp2 : squadRun p st (l2 ++ [dt2]) ⟨m, .engaging, tt, rp, fc, 0⟩ =
      ⟨m, .retreating, tt,
        squadTarget tt p st +
          Vec3.scale 100 (Vec3.normalize (fc - squadTarget tt p st)), fc, 0⟩ := by
    rw [squadRun_append, run_engaging p st m tt rp fc l2 0 hm hl2 (by linarith),
      squadRun_cons, step_engaging_to_retreating dt2 p st m tt rp fc (0 + l2.sum) hm
        (by rw [zero_add]; exact h2), squadRun_nil]
  obtain ⟨fc2, hfc2⟩ := run_retreating p st m tt
    (squadTarget tt p st + Vec3.scale 100 (Vec3.normalize (fc - squadTarget tt p st)))
    l3 fc 0 hm hl3 (by linarith)
  have hp3 : squadRun p st (l3 ++ [dt3])
      ⟨m, .retreating, tt,
        squadTarget tt p st +
          Vec3.scale 100 (Vec3.normalize (fc - squadTarget tt p st)), fc, 0⟩ =
      ⟨m, .regrouping, tt,
        squadTarget tt p st +
          Vec3.scale 100 (Vec3.normalize (fc - squadTarget tt p st)),
        retreatMove dt3
          (squadTarget tt p st +
            Vec3.scale 100 (Vec3.normalize (fc - squadTarget tt p st))) fc2, 0⟩ := by
    rw [squadRun_append, hfc2, squadRun_cons,
      step_retreating_to_regrouping dt3 p st m tt _ fc2 (0 + l3.sum) hm
        (by rw [zero_add]; exact h3), squadRun_nil]
  refine ⟨retreatMove dt3
      (squadTarget tt p st +
        Vec3.scale 100 (Vec3.normalize (fc - squadTarget tt p st))) fc2,
    hp1, hp2, rally_distance (squadTarget tt p st) fc hne, hp3, ?_, ?_⟩
  · rw [squadRun_append, run_regrouping p st m tt _ _ l4 0 hm hl4 (by linarith),
      squadRun_cons, step_regrouping_to_approaching dt4 p st m tt _ _ (0 + l4.sum) hm
        (by rw [zero_add]; exact h4), squadRun_nil]
  · rw [squadRun_append p st ([dt1] ++ (l2 ++ [dt2]) ++ (l3 ++ [dt3])) (l4 ++ [dt4]),
      squadRun_append p st ([dt1] ++ (l2 ++ [dt2])) (l3 ++ [dt3]),
      squadRun_append p st [dt1] (l2 ++ [dt2]), hp1, hp2, hp3,
      squadRun_append p st l4 [dt4],
      run_regrouping p st m tt _ _ l4 0 hm hl4 (by linarith),
      squadRun_cons, step_regrouping_to_approaching dt4 p st m tt _ _ (0 + l4.sum) hm
        (by rw [zero_add]; exact h4), squadRun_nil]

/-- C7 witness: a one-member squad 50 units from its player target runs the
full cycle with single ticks of 1 s, 9 s, 4 s and 5 s. -/
theorem claim_C7_witness :
    ∃ fc3 : Vec3,
      squadRun ⟨0, 0, 0⟩ ⟨0, 0, 0⟩ [1]
          ⟨1, .approaching, .player, ⟨0, 0, 0⟩, ⟨50, 0, 0⟩, 0⟩ =
        ⟨1, .engaging, .player, ⟨0, 0, 0⟩, ⟨50, 0, 0⟩, 0⟩ ∧
      squadRun ⟨0, 0, 0⟩ ⟨0, 0, 0⟩ ([] ++ [9])
          ⟨1, .engaging, .player, ⟨0, 0, 0⟩, ⟨50, 0, 0⟩, 0⟩ =
        ⟨1, .retreating, .player,
          squadTarget .player ⟨0, 0, 0⟩ ⟨0, 0, 0⟩ +
            Vec3.scale 100 (Vec3.normalize
              ((⟨50, 0, 0⟩ : Vec3) - squadTarget .player ⟨0, 0, 0⟩ ⟨0, 0, 0⟩)),
          ⟨50, 0, 0⟩, 0⟩ ∧
      Vec3.distance
          (squadTarget .player ⟨0, 0, 0⟩ ⟨0, 0, 0⟩ +
            Vec3.scale 100 (Vec3.normalize
              ((⟨50, 0, 0⟩ : Vec3) - squadTarget .player ⟨0, 0, 0⟩ ⟨0, 0, 0⟩)))
          (squadTarget .player ⟨0, 0, 0⟩ ⟨0, 0, 0⟩) = 100 ∧
      squadRun ⟨0, 0, 0⟩ ⟨0, 0, 0⟩ ([] ++ [4])
          ⟨1, .retreating, .player,
            squadTarget .player ⟨0, 0, 0⟩ ⟨0, 0, 0⟩ +
              Vec3.scale 100 (Vec3.normalize
                ((⟨50, 0, 0⟩ : Vec3) - squadTarget .player ⟨0, 0, 0⟩ ⟨0, 0, 0⟩)),
            ⟨50, 0, 0⟩, 0⟩ =
        ⟨1, .regrouping, .player,
          squadTarget .player ⟨0, 0, 0⟩ ⟨0, 0, 0⟩ +
            Vec3.scale 100 (Vec3.normalize
              ((⟨50, 0, 0⟩ : Vec3) - squadTarget .player ⟨0, 0, 0⟩ ⟨0, 0, 0⟩)),
          fc3, 0⟩ ∧
      squadRun ⟨0, 0, 0⟩ ⟨0, 0, 0⟩ ([] ++ [5])
          ⟨1, .regrouping, .player,
            squadTarget .player ⟨0, 0, 0⟩ ⟨0, 0, 0⟩ +
              Vec3.scale 100 (Vec3.normalize
                ((⟨50, 0, 0⟩ : Vec3) - squadTarget .player ⟨0, 0, 0⟩ ⟨0, 0, 0⟩)),
            fc3, 0⟩ =
        ⟨1, .approaching, .player,
          squadTarget .player ⟨0, 0, 0⟩ ⟨0, 0, 0⟩ +
            Vec3.scale 100 (Vec3.normalize
              ((⟨50, 0, 0⟩ : Vec3) - squadTarget .player ⟨0, 0, 0⟩ ⟨0, 0, 0⟩)),
          fc3, 0⟩ ∧
      squadRun ⟨0, 0, 0⟩ ⟨0, 0, 0⟩ ([1] ++ ([] ++ [9]) ++ ([] ++ [4]) ++ ([] ++ [5]))
          ⟨1, .approaching, .player, ⟨0, 0, 0⟩, ⟨50, 0, 0⟩, 0⟩ =
        ⟨1, .approaching, .player,
          squadTarget .player ⟨0, 0, 0⟩ ⟨0, 0, 0⟩ +
            Vec3.scale 100 (Vec3.normalize
              ((⟨50, 0, 0⟩ : Vec3) - squadTarget .player ⟨0, 0, 0⟩ ⟨0, 0, 0⟩)),
          fc3, 0⟩ := by
  have hd : Vec3.length (squadTarget .player ⟨0, 0, 0⟩ ⟨0, 0, 0⟩ - ⟨50, 0, 0⟩) ≤ 60 := by
    show Real.sqrt ((0 - 50 : ℝ) ^ 2 + (0 - 0 : ℝ) ^ 2 + (0 - 0 : ℝ) ^ 2) ≤ 60
    rw [show ((0 - 50 : ℝ) ^ 2 + (0 - 0 : ℝ) ^ 2 + (0 - 0 : ℝ) ^ 2) = 50 ^ 2 by norm_num,
      Real.sqrt_sq (by norm_num : (0 : ℝ) ≤ 50)]
    norm_num
  have hne : (⟨50, 0, 0⟩ : Vec3) ≠ squadTarget .player ⟨0, 0, 0⟩ ⟨0, 0, 0⟩ := by
    intro h
    have := congrArg Vec3.x h
    norm_num [squadTarget] at this
  exact claim_C7 ⟨0, 0, 0⟩ ⟨0, 0, 0⟩ 1 .player ⟨0, 0, 0⟩ ⟨50, 0, 0⟩ 0
    (by norm_num) hd hne 1 9 4 5 [] [] []
    (by simp) (by simp) (by simp; norm_num)
    (by simp) (by simp) (by simp; norm_num)
    (by simp) (by simp) (by simp; norm_num)

/-! ## Stochastic target flip (claim C8) -/

/-- C8 counterexample: a step taken in the `engaging` state with flip draws
`r1 = 0.001 < 0.002` and `r2 = 0.9` changes the target type from player to
station, so the flip is not restricted to non-engaging states. -/
theorem claim_C8_counterexample :
    (Squad.update 1 ⟨0, 0, 0⟩ ⟨0, 0, 0⟩ (1 / 1000) (9 / 10)
        ⟨1, .engaging, .player, ⟨0, 0, 0⟩, ⟨0, 0, 0⟩, 0⟩).targetType = .station ∧
    TargetType.station ≠ TargetType.player := by
  constructor
  · have h8 : ¬ (engageDuration < (0 : ℝ) + 1) := by
      rw [engageDuration]
      norm_num
    have hr1 : (1 / 1000 : ℝ) < 1 / 500 := by norm_num
    have hr2 : ¬ ((9 / 10 : ℝ) < 1 / 2) := by norm_num
    simp only [Squad.update, one_ne_zero, if_false, ite_false, updateEngaging,
      if_neg h8, if_pos hr1, if_neg hr2]
  · intro h
    exact TargetType.noConfusion h

/-- C8 amended: the ~0.2% stochastic target flip runs on every tick of a
non-empty squad regardless of the squad state — including `engaging` — and
the state-machine branches themselves never change the target type: after
any step the target type is re-rolled exactly when the first draw fires
(`r1 < 0.002`) and is left unchanged otherwise. -/
theorem claim_C8_amended (dt : ℝ) (p st : Vec3) (r1 r2 : ℝ) (s : Squad)
    (hm : s.memberCount ≠ 0) :
    (Squad.update dt p st r1 r2 s).targetType =
      if r1 < 1 / 500 then (if r2 < 1 / 2 then .player else .station)
      else s.targetType := by
  obtain ⟨m, st0, tt, rp, fc, t⟩ := s
  simp only [Squad.update, hm, if_false, ite_false]
  by_cases hr : r1 < 1 / 500
  · rw [if_pos hr, if_pos hr]
  · rw [if_neg hr, if_neg hr]
    cases st0 <;>
      simp only [updateApproaching, updateEngaging, updateRetreating,
        updateRegrouping] <;>
      split <;> rfl

/-- C8 amended witness: with draws that do not fire (`r1 = 1`) a step in the
`engaging` state leaves the station target unchanged. -/
theorem claim_C8_amended_witness :
    (Squad.update 1 ⟨0, 0, 0⟩ ⟨0, 0, 0⟩ 1 1
        ⟨1, .engaging, .station, ⟨0, 0, 0⟩, ⟨0, 0, 0⟩, 0⟩).targetType =
      if (1 : ℝ) < 1 / 500 then (if (1 : ℝ) < 1 / 2 then .player else .station)
      else .station :=
  claim_C8_amended 1 ⟨0, 0, 0⟩ ⟨0, 0, 0⟩ 1 1
    ⟨1, .engaging, .station, ⟨0, 0, 0⟩, ⟨0, 0, 0⟩, 0⟩ (by norm_num)

/-! ## Read-and-reset resource accessors (claim C10) -/

/-- C10: every `getCollectedResources` accessor has read-and-reset semantics:
the asteroid and enemy variants return the accumulated counter and zero it
(so an immediate second call returns 0), and the station variant returns
`floor(accumulator)` and leaves exactly the fractional remainder (which lies
in `[0, 1)`, so an immediate second call also returns 0). -/
theorem claim_C10 :
    (∀ c : ℚ, asteroidGetCollectedResources c = (c, 0) ∧
      (asteroidGetCollectedResources (asteroidGetCollectedResources c).2).1 = 0) ∧
    (∀ c : ℚ, enemyGetCollectedResources c = (c, 0) ∧
      (enemyGetCollectedResources (enemyGetCollectedResources c).2).1 = 0) ∧
    (∀ a : ℚ, (stationGetCollectedResources a).1 = ⌊a⌋ ∧
      (stationGetCollectedResources a).2 = Int.fract a ∧
      0 ≤ (stationGetCollectedResources a).2 ∧
      (stationGetCollectedResources a).2 < 1 ∧
      (stationGetCollectedResources (stationGetCollectedResources a).2).1 = 0) := by
  refine ⟨fun c => ⟨rfl, rfl⟩, fun c => ⟨rfl, rfl⟩, fun a => ?_⟩
  have hsub : (stationGetCollectedResources a).2 = Int.fract a := by
    show a - (⌊a⌋ : ℚ) = Int.fract a
    exact Int.self_sub_floor a
  refine ⟨rfl, hsub, ?_, ?_, ?_⟩
  · rw [hsub]
    exact Int.fract_nonneg a
  · rw [hsub]
    exact Int.fract_lt_one a
  · show (⌊(stationGetCollectedResources a).2⌋ : ℤ) = 0
    rw [hsub]
    exact Int.floor_fract a

end Space3D
